import Mathlib

/-!
Verification development for the `animated-waves` web component
(`src/src/index.ts`, plus the near-duplicate variant `src/test.ts`).

The component's parameter generation is JavaScript floating-point
arithmetic.  We embed JS numbers as an algebraic datatype `JSNum`
carrying `NaN`, the two infinities, and exact rationals for finite
values; the arithmetic operations follow IEEE-754 special-value rules
exactly, while finite arithmetic is exact rational arithmetic (the
claims under study never depend on rounding, only on special-value
propagation, ordering and exact linear formulas).  Negative zero is not
modelled (no claim distinguishes it from zero).

Randomness (`Math.random()`, uniform in `[0,1)`) is modelled by explicit
streams `ℕ → ℚ`, one stream per drawing site, with the range constraint
`0 ≤ r i < 1` taken as a hypothesis where needed.
-/

set_option allowUnsafeReducibility true

-- Rational arithmetic must evaluate inside `decide` witnesses, so the
-- core field operations on `Rat` are restored to their default
-- reducibility for this file.
attribute [local semireducible] Rat.add Rat.mul Rat.inv Rat.div Rat.sub Rat.neg Rat.ofScientific

/-- Model of a JavaScript number: `NaN`, the infinities, or a finite
value represented as an exact rational. -/
inductive JSNum where
  | nan : JSNum
  | posInf : JSNum
  | negInf : JSNum
  | fin : ℚ → JSNum
deriving DecidableEq

namespace JSNum

/-- IEEE-754 negation on the model (finite negation; infinities swap;
`NaN` is absorbing). -/
def neg : JSNum → JSNum
  | nan => nan
  | posInf => negInf
  | negInf => posInf
  | fin q => fin (-q)

/-- IEEE-754 addition on the model: `NaN` absorbs, opposite infinities
give `NaN`, an infinity absorbs finite values, finite addition is exact. -/
def add : JSNum → JSNum → JSNum
  | nan, _ => nan
  | _, nan => nan
  | posInf, negInf => nan
  | negInf, posInf => nan
  | posInf, _ => posInf
  | _, posInf => posInf
  | negInf, _ => negInf
  | _, negInf => negInf
  | fin a, fin b => fin (a + b)

/-- IEEE-754 subtraction, defined as addition of the negation (exact for
all special values). -/
def sub (a b : JSNum) : JSNum := a.add b.neg

/-- IEEE-754 multiplication on the model: `NaN` absorbs, infinity times
zero is `NaN`, signs multiply, finite multiplication is exact. -/
def mul : JSNum → JSNum → JSNum
  | nan, _ => nan
  | _, nan => nan
  | posInf, posInf => posInf
  | posInf, negInf => negInf
  | negInf, posInf => negInf
  | negInf, negInf => posInf
  | posInf, fin b => if b = 0 then nan else if 0 < b then posInf else negInf
  | fin a, posInf => if a = 0 then nan else if 0 < a then posInf else negInf
  | negInf, fin b => if b = 0 then nan else if 0 < b then negInf else posInf
  | fin a, negInf => if a = 0 then nan else if 0 < a then negInf else posInf
  | fin a, fin b => fin (a * b)

/-- IEEE-754 division on the model: `NaN` absorbs, infinity over
infinity is `NaN`, `0/0` is `NaN`, a nonzero finite value over zero is a
signed infinity, a finite value over an infinity is zero, finite
division is exact.  Negative zero is not modelled, so division of an
infinity by zero takes the positive-zero branch. -/
def div : JSNum → JSNum → JSNum
  | nan, _ => nan
  | _, nan => nan
  | posInf, posInf => nan
  | posInf, negInf => nan
  | negInf, posInf => nan
  | negInf, negInf => nan
  | posInf, fin b => if 0 ≤ b then posInf else negInf
  | negInf, fin b => if 0 ≤ b then negInf else posInf
  | fin _, posInf => fin 0
  | fin _, negInf => fin 0
  | fin a, fin b =>
      if b = 0 then (if a = 0 then nan else if 0 < a then posInf else negInf)
      else fin (a / b)

/-- Model of `Math.max` on two arguments: `NaN` if either argument is
`NaN`, otherwise the larger under the usual order with `-Infinity` least
and `Infinity` greatest. -/
def jsmax : JSNum → JSNum → JSNum
  | nan, _ => nan
  | _, nan => nan
  | posInf, _ => posInf
  | _, posInf => posInf
  | negInf, b => b
  | a, negInf => a
  | fin a, fin b => fin (max a b)

/-- IEEE comparison `a ≤ b` as a Boolean: false whenever either side is
`NaN`, otherwise the order with `-Infinity` least and `Infinity`
greatest. -/
def leb : JSNum → JSNum → Bool
  | nan, _ => false
  | _, nan => false
  | negInf, _ => true
  | _, posInf => true
  | posInf, _ => false
  | _, negInf => false
  | fin a, fin b => decide (a ≤ b)

/-- Number of iterations of a JavaScript loop `for (let i = 0; i < count; i++)`
(equivalently the length of `Array.from({length: count})`): zero when
`count` is `NaN` or not positive, otherwise the ceiling of `count`.
The counts of this program come from `parseInt`, which never produces an
infinity, so the infinite cases are mapped to zero. -/
def loopCount : JSNum → ℕ
  | fin q => if 0 < q then (Int.ceil q).toNat else 0
  | _ => 0

end JSNum

/-- Value of a list of decimal digit characters (most significant first). -/
def digitsToNat (ds : List Char) : ℕ :=
  ds.foldl (fun n c => 10 * n + (c.toNat - 48)) 0

/-- Fractional decimal digits of a rational in `[0,1)`, up to `fuel`
digits, stopping early when the remainder is zero. -/
def fracDigits : ℕ → ℚ → List Char
  | 0, _ => []
  | fuel + 1, r =>
      if r = 0 then []
      else
        let r10 := r * 10
        let d := Int.floor r10
        Char.ofNat (48 + d.toNat) :: fracDigits fuel (r10 - d)

/-- Decimal rendering of a rational, modelling JavaScript number
`toString` on the exact-rational fragment: integers print without a
decimal point, terminating decimals print exactly, and non-terminating
expansions are cut at 20 digits (JavaScript prints the shortest
round-tripping double instead; no claim inspects such digits). -/
def qToString (q : ℚ) : String :=
  let sgn := if q < 0 then "-" else ""
  let a := |q|
  let ip := Int.floor a
  let fp := a - ip
  if fp = 0 then sgn ++ toString ip.toNat
  else sgn ++ toString ip.toNat ++ "." ++ String.mk (fracDigits 20 fp)

/-- String form of a `JSNum` as JavaScript template-literal interpolation
would produce it. -/
def JSNum.toJsString : JSNum → String
  | JSNum.nan => "NaN"
  | JSNum.posInf => "Infinity"
  | JSNum.negInf => "-Infinity"
  | JSNum.fin q => qToString q

/-- Model of the JavaScript `parseFloat` builtin (a host function, not
repository code): skip leading whitespace, read an optional sign, then
decimal digits with an optional fractional part; return `NaN` when no
digit is found.  Exponents and `Infinity` literals, which no
configuration of the claims exercises, are not modelled. -/
def jsParseFloat (s : String) : JSNum :=
  let cs := s.toList.dropWhile Char.isWhitespace
  let signed := cs.head? = some '-'
  let cs := if cs.head? = some '-' ∨ cs.head? = some '+' then cs.tail else cs
  let intDs := cs.takeWhile Char.isDigit
  let rest := cs.dropWhile Char.isDigit
  let fracDs := if rest.head? = some '.' then rest.tail.takeWhile Char.isDigit else []
  if intDs.isEmpty ∧ fracDs.isEmpty then JSNum.nan
  else
    let mag : ℚ := (digitsToNat intDs : ℚ) + (digitsToNat fracDs : ℚ) / (10 ^ fracDs.length)
    JSNum.fin (if signed then -mag else mag)

/-- Model of the JavaScript `parseInt` builtin with no radix argument on
decimal input (a host function, not repository code): skip leading
whitespace, read an optional sign and then leading decimal digits;
return `NaN` when no digit is found.  Hexadecimal prefixes are not
modelled. -/
def jsParseInt (s : String) : JSNum :=
  let cs := s.toList.dropWhile Char.isWhitespace
  let signed := cs.head? = some '-'
  let cs := if cs.head? = some '-' ∨ cs.head? = some '+' then cs.tail else cs
  let ds := cs.takeWhile Char.isDigit
  if ds.isEmpty then JSNum.nan
  else JSNum.fin ((if signed then -1 else 1) * (digitsToNat ds : ℚ))

/-- Split a character list at every occurrence of `sep`, keeping empty
pieces, as JavaScript `String.prototype.split` does with a single-character
separator. -/
def splitOnChar (sep : Char) (cs : List Char) : List (List Char) :=
  cs.foldr
    (fun c acc =>
      match acc with
      | [] => [[c]]
      | a :: rest => if c = sep then [] :: a :: rest else (c :: a) :: rest)
    [[]]

/-- Strip leading and trailing whitespace from a character list, as
JavaScript `String.prototype.trim` does. -/
def trimChars (cs : List Char) : List Char :=
  ((cs.dropWhile Char.isWhitespace).reverse.dropWhile Char.isWhitespace).reverse

/-- JavaScript `a || d` on an attribute read: `getAttribute` yields the
string or `null`; `null` and the empty string are falsy, so both fall
back to the default. -/
def jsOr (a : Option String) (d : String) : String :=
  match a with
  | none => d
  | some s => if s = "" then d else s

/-- Raw attribute snapshot of the component: each recognized attribute is
either absent (`none`) or a string, exactly what `getAttribute` can
return. -/
structure Config where
  waveColor : Option String := none
  backgroundColor : Option String := none
  height : Option String := none
  speed : Option String := none
  opacityRange : Option String := none
  waveCount : Option String := none
  animationStyle : Option String := none
  position : Option String := none
  waveHeight : Option String := none
  contentPadding : Option String := none
  contentBackgroundColor : Option String := none
  responsive : Option String := none

/-- Result of reading a property off the easing lookup object: either a
string value (an own property of the literal, or the `smooth` string
substituted by `||` when the read is `undefined`), or a member inherited
from `Object.prototype`.  A JavaScript object literal inherits from
`Object.prototype`, so reads of its property names (`constructor`,
`toString`, `__proto__`, ...) yield truthy function/object values that
the `||` fallback does not replace. -/
inductive JsValue where
  | str : String → JsValue
  | inherited : String → JsValue
deriving DecidableEq

/-- Property names inherited by every object literal from
`Object.prototype` (ECMAScript standard members). -/
def objectPrototypeKeys : List String :=
  ["constructor", "hasOwnProperty", "isPrototypeOf", "propertyIsEnumerable",
   "toLocaleString", "toString", "valueOf", "__defineGetter__", "__defineSetter__",
   "__lookupGetter__", "__lookupSetter__", "__proto__"]

/-- Text a template literal produces when it interpolates a lookup
result.  For an inherited member the text is host-defined (built-in
functions print their native-code form, the `__proto__` accessor yields
an object printing as `[object Object]`); no claim inspects these
characters, only that they are not a timing-function string. -/
def JsValue.interp : JsValue → String
  | JsValue.str s => s
  | JsValue.inherited k =>
      if k = "__proto__" then "[object Object]"
      else "function " ++ k ++ "() \x7b [native code] \x7d"

namespace Index

/-- Getter `waveColor` (src/src/index.ts lines 34-36). -/
def waveColor (c : Config) : String := jsOr c.waveColor "#1A237E"

/-- Getter `backgroundColor` (lines 38-40). -/
def backgroundColor (c : Config) : String := jsOr c.backgroundColor "transparent"

/-- Getter `height` (lines 42-44). -/
def height (c : Config) : String := jsOr c.height ""

/-- Getter `speed` (lines 46-48): `parseFloat` of the attribute or `"1"`. -/
def speed (c : Config) : JSNum := jsParseFloat (jsOr c.speed "1")

/-- Getter `opacityRange` (lines 50-53): split the attribute (default
`"0.3,0.9"`) on commas and `parseFloat` each trimmed component. -/
def opacityRange (c : Config) : List JSNum :=
  (splitOnChar ',' (jsOr c.opacityRange "0.3,0.9").toList).map
    (fun v => jsParseFloat (String.mk (trimChars v)))

/-- Getter `waveCount` (lines 55-57): `parseInt` of the attribute or `"4"`. -/
def waveCount (c : Config) : JSNum := jsParseInt (jsOr c.waveCount "4")

/-- Getter `animationStyle` (lines 59-61). -/
def animationStyle (c : Config) : String := jsOr c.animationStyle "smooth"

/-- Getter `position` (lines 63-65). -/
def position (c : Config) : String := jsOr c.position "top"

/-- Getter `waveHeight` (lines 67-69). -/
def waveHeight (c : Config) : String := jsOr c.waveHeight "100px"

/-- Getter `contentPadding` (lines 71-73). -/
def contentPadding (c : Config) : String := jsOr c.contentPadding "20px"

/-- Getter `contentBackgroundColor` (lines 75-77): falls back to the
resolved wave color. -/
def contentBackgroundColor (c : Config) : String :=
  jsOr c.contentBackgroundColor (waveColor c)

/-- Getter `responsive` (lines 79-81): true unless the attribute is the
literal string `"false"`. -/
def responsive (c : Config) : Bool := c.responsive ≠ some "false"

/-- Embedding of `getAnimationDurations` (src/src/index.ts lines 100-113).
The `this.speed` and `this.waveCount` getter reads are lambda-lifted into
the parameters `baseSpeed` and `count`; the `Math.random()` draw of
iteration `i` is `rand i`. -/
def getAnimationDurations (baseSpeed count : JSNum) (rand : ℕ → ℚ) : List JSNum :=
  (List.range count.loopCount).map (fun (i : ℕ) =>
    let baseDuration : ℚ := 15 + i * 8
    let randomVariation : ℚ := (rand i - 0.5) * 10
    let finalDuration := (JSNum.fin (baseDuration + randomVariation)).div baseSpeed
    ((JSNum.fin 10).div baseSpeed).jsmax finalDuration)

/-- Embedding of `getAnimationDelays` (lines 115-125); the `this.waveCount`
read is the parameter `count`, the `Math.random()` draw of iteration `i`
is `rand i`. -/
def getAnimationDelays (count : JSNum) (rand : ℕ → ℚ) : List JSNum :=
  (List.range count.loopCount).map (fun i => JSNum.fin (-(rand i * 30)))

/-- Embedding of `getOpacities` (lines 127-137); the destructured
`this.opacityRange` components and the `this.waveCount` read are the
parameters.  A missing range component destructures to `undefined`,
whose arithmetic is `NaN`; callers therefore pass `JSNum.nan` for
missing components. -/
def getOpacities (minOpacity maxOpacity count : JSNum) : List JSNum :=
  let step := (maxOpacity.sub minOpacity).div (count.sub (JSNum.fin 1))
  (List.range count.loopCount).map (fun (i : ℕ) => minOpacity.add (step.mul (JSNum.fin (i : ℚ))))

/-- Embedding of `getEasing` (lines 139-148): `styles[key] ||
styles.smooth` on the five-entry object literal, written as the
equivalent first-match chain.  An own property yields its timing string;
a name inherited from `Object.prototype` yields the inherited truthy
member, which `||` does not replace; only the remaining names read
`undefined` and fall back to `styles.smooth`. -/
def getEasing (style : String) : JsValue :=
  if style = "smooth" then JsValue.str "cubic-bezier(.4,0,.2,1)"
  else if style = "linear" then JsValue.str "linear"
  else if style = "ease-in-out" then JsValue.str "ease-in-out"
  else if style = "bouncy" then JsValue.str "cubic-bezier(.68,-0.55,.265,1.55)"
  else if style = "gentle" then JsValue.str "cubic-bezier(.25,.46,.45,.94)"
  else if style ∈ objectPrototypeKeys then JsValue.inherited style
  else JsValue.str "cubic-bezier(.4,0,.2,1)"

end Index

/-- Explicit random sources for one wave section: `Math.random()` draws
are threaded as one stream per drawing site (duration jitter, delay,
x offset, y offset), indexed by wave number. -/
structure RandStreams where
  dur : ℕ → ℚ
  del : ℕ → ℚ
  gx : ℕ → ℚ
  gy : ℕ → ℚ

/-- Result of `getResponsiveWaveHeight` (src/src/index.ts lines 83-98):
either the raw wave-height string (non-responsive branch) or the derived
breakpoint set. -/
inductive RespHeights where
  | str : String → RespHeights
  | set : String → String → String → String → RespHeights
deriving DecidableEq

/-- Output of `createWaveSection`: the markup fragment and the per-wave
style rules. -/
structure WaveSection where
  html : String
  styles : String
deriving DecidableEq

/-- Replace every maximal run of decimal digits in `cs` by `f` applied to
its numeric value, modelling `String.prototype.replace` with the global
digit-run pattern used for the responsive content padding. -/
def replaceDigitRuns (cs : List Char) (f : ℕ → String) : String :=
  match cs with
  | [] => ""
  | c :: rest =>
      if c.isDigit then
        f (digitsToNat (c :: rest.takeWhile Char.isDigit))
          ++ replaceDigitRuns (rest.dropWhile Char.isDigit) f
      else String.singleton c ++ replaceDigitRuns rest f
termination_by cs.length
decreasing_by
  · exact Nat.lt_succ_of_le (List.dropWhile_sublist _).length_le
  · exact Nat.lt_succ_self _

namespace Index

/-- Embedding of `getResponsiveWaveHeight` (src/src/index.ts lines
83-98): the raw height when not responsive, otherwise the breakpoint
set with 60%/80% scaling floored at 40 and 60 length units, the unit
suffix recovered by deleting digit and dot characters. -/
def getResponsiveWaveHeight (c : Config) : RespHeights :=
  if ¬ responsive c then RespHeights.str (waveHeight c)
  else
    let baseHeight := jsParseFloat (waveHeight c)
    let unit := String.mk ((waveHeight c).toList.filter (fun ch => ¬(ch.isDigit ∨ ch = '.')))
    RespHeights.set (waveHeight c)
      (((baseHeight.mul (JSNum.fin 0.6)).jsmax (JSNum.fin 40)).toJsString ++ unit)
      (((baseHeight.mul (JSNum.fin 0.8)).jsmax (JSNum.fin 60)).toJsString ++ unit)
      (waveHeight c)

/-- Wave-instance references of one section (the `waveElements` local of
`createWaveSection`, lines 156-160): `waveCount` positioned `use`
references with randomized offsets. -/
def waveElementsStr (c : Config) (rs : RandStreams) : String :=
  String.join (((List.range (waveCount c).loopCount)).map (fun (i : ℕ) =>
    let randomX : ℚ := 48 + (rs.gx i - 0.5) * 20
    let randomY : ℚ := i * 2 + (rs.gy i - 0.5) * 4
    "<use xlink:href=\"#gentle-wave\" x=\"" ++ qToString randomX
      ++ "\" y=\"" ++ qToString randomY ++ "\" />"))

/-- Per-wave style rules of one section (the `waveStyles` local of
`createWaveSection`, lines 162-173): one `nth-child` rule per wave index
with fill, opacity, animation and delay. -/
def waveStylesStr (c : Config) (rs : RandStreams) (isBottom : Bool) : String :=
  let durations := getAnimationDurations (speed c) (waveCount c) rs.dur
  let delays := getAnimationDelays (waveCount c) rs.del
  let opacities := getOpacities ((opacityRange c).getD 0 JSNum.nan)
    ((opacityRange c).getD 1 JSNum.nan) (waveCount c)
  String.join (((List.range (waveCount c).loopCount)).map (fun (i : ℕ) =>
    let animationName := "wave-animation-" ++ toString (i % 4 + 1)
    let sectionClass := if isBottom then "bottom-waves" else "top-waves"
    "\n        ." ++ sectionClass ++ " .parallax use:nth-child(" ++ toString (i + 1)
      ++ ") \x7b\n          fill: " ++ waveColor c
      ++ ";\n          opacity: " ++ (opacities.getD i JSNum.nan).toJsString
      ++ ";\n          animation: " ++ animationName ++ " "
      ++ (durations.getD i JSNum.nan).toJsString ++ "s "
      ++ (getEasing (animationStyle c)).interp
      ++ " infinite;\n          animation-delay: "
      ++ (delays.getD i JSNum.nan).toJsString ++ "s;\n        \x7d\n      "))

/-- Embedding of `createWaveSection` (lines 150-191): the section markup
wrapping the wave-instance references, and the per-wave style rules. -/
def createWaveSection (c : Config) (rs : RandStreams) (isBottom : Bool) : WaveSection :=
  let transformRotation := if isBottom then "transform: rotate(180deg);" else ""
  { html :=
      "\n        <div class=\"wave-section "
        ++ (if isBottom then "bottom-waves" else "top-waves")
        ++ "\">\n          <svg class=\"waves\" xmlns=\"http://www.w3.org/2000/svg\" xmlns:xlink=\"http://www.w3.org/1999/xlink\"\n          viewBox=\"0 24 150 28\" preserveAspectRatio=\"none\" style=\""
        ++ transformRotation
        ++ "\">\n            <defs>\n              <path id=\"gentle-wave\" d=\"M-320 44c30 0 58-18 88-18s 58 18 88 18 58-18 88-18 58 18 88 18 58-18 88-18s 58 18 88 18 58-18 88-18 58 18 88 18 v44h-704z\" />\n            </defs>\n            <g class=\"parallax\">\n              "
        ++ waveElementsStr c rs
        ++ "\n            </g>\n          </svg>\n        </div>\n      ",
    styles := waveStylesStr c rs isBottom }

/-- Content slot markup composed when `position` is `both` (lines
209-215). -/
def contentSlotHtml : String :=
  "\n        <div class=\"content-section\">\n          <slot></slot>\n        </div>\n      "

/-- Scaled content padding of the breakpoint overrides (lines 298 and
316): every digit run `n` of the padding string becomes
`max(n * factor, floor)`. -/
def scalePadding (p : String) (factor floorV : ℚ) : String :=
  replaceDigitRuns p.toList (fun n => qToString (max ((n : ℚ) * factor) floorV))

/-- Breakpoint-scoped override blocks (lines 290-319): composed only when
the component is responsive and the responsive heights are the derived
set, otherwise the empty string. -/
def responsiveBlockStr (c : Config) (rh : RespHeights) : String :=
  match rh with
  | RespHeights.str _ => ""
  | RespHeights.set _ mobile tablet _ =>
      if responsive c then
        "\n          /* Mobile styles */\n          @media (max-width: 768px) \x7b\n            .wave-section \x7b\n              height: "
          ++ mobile
          ++ ";\n            \x7d\n            \n            .content-section \x7b\n              padding: "
          ++ scalePadding (contentPadding c) 0.7 10
          ++ ";\n            \x7d\n          \x7d\n          \n          /* Tablet styles */\n          @media (min-width: 769px) and (max-width: 1024px) \x7b\n            .wave-section \x7b\n              height: "
          ++ tablet
          ++ ";\n            \x7d\n          \x7d\n          \n          /* Small mobile styles */\n          @media (max-width: 480px) \x7b\n            .wave-section \x7b\n              height: "
          ++ mobile
          ++ ";\n            \x7d\n            \n            .content-section \x7b\n              padding: "
          ++ scalePadding (contentPadding c) 0.5 8
          ++ ";\n            \x7d\n          \x7d\n        "
      else ""

/-- Locals of one `render` call (lines 193-331): the composed sections,
the container height, the responsive block and the committed
`innerHTML`. -/
structure RenderParts where
  topWaves : WaveSection
  bottomWaves : WaveSection
  contentSection : String
  containerHeight : String
  responsiveBlock : String
  innerHTML : String

/-- Embedding of `render` (lines 193-331): compose the wave sections
demanded by `position`, the content slot for `both`, the responsive
block, and assemble the shadow-root `innerHTML` exactly as the template
literal does.  `rs1` feeds the top section's random draws and `rs2` the
bottom section's. -/
def waveSectionHeightStr (c : Config) : String :=
  match getResponsiveWaveHeight c with
  | RespHeights.str s => s
  | RespHeights.set _ _ _ desktop => desktop

/-- Assembly of the shadow-root `innerHTML` template literal (lines
223-330) from the composed parts, with the fixed CSS text reproduced
verbatim. -/
def assembleInnerHTML (c : Config) (topWaves bottomWaves : WaveSection)
    (contentSection containerHeight minHeight responsiveBlock : String) : String :=
  "\n      <style>\n        :host \x7b\n          display: block;\n          width: 100%;\n        \x7d\n        \n        .container \x7b\n          background: "
    ++ backgroundColor c
    ++ ";\n          width: 100%;\n          height: "
    ++ containerHeight
    ++ ";\n          min-height: "
    ++ minHeight
    ++ ";\n          overflow: hidden;\n          display: flex;\n          flex-direction: column;\n        \x7d\n\n        .wave-section \x7b\n          width: 100%;\n          height: "
    ++ waveSectionHeightStr c
    ++ ";\n          overflow: hidden;\n          flex-shrink: 0;\n        \x7d\n\n        .content-section \x7b\n          flex: 1;\n          padding: "
    ++ contentPadding c
    ++ ";\n          background: "
    ++ contentBackgroundColor c
    ++ ";\n          display: flex;\n          flex-direction: column;\n          justify-content: center;\n          align-items: center;\n          min-height: 0;\n        \x7d\n\n        .waves \x7b\n          position: relative;\n          display: block;\n          width: 100%;\n          height: 100%;\n          transform: translateZ(0);\n          will-change: transform;\n        \x7d\n\n        @keyframes wave-animation-1 \x7b\n          0% \x7b transform: translateX(-90px) translateZ(0); \x7d\n          100% \x7b transform: translateX(85px) translateZ(0); \x7d\n        \x7d\n        @keyframes wave-animation-2 \x7b\n          0% \x7b transform: translateX(-85px) translateZ(0); \x7d\n          100% \x7b transform: translateX(90px) translateZ(0); \x7d\n        \x7d\n        @keyframes wave-animation-3 \x7b\n          0% \x7b transform: translateX(-100px) translateZ(0); \x7d\n          100% \x7b transform: translateX(75px) translateZ(0); \x7d\n        \x7d\n        @keyframes wave-animation-4 \x7b\n          0% \x7b transform: translateX(-80px) translateZ(0); \x7d\n          100% \x7b transform: translateX(95px) translateZ(0); \x7d\n        \x7d\n\n        .parallax use \x7b\n          will-change: transform;\n          transform: translateZ(0);\n          backface-visibility: hidden;\n        \x7d\n\n        "
    ++ responsiveBlock
    ++ "\n\n        "
    ++ topWaves.styles
    ++ "\n        "
    ++ bottomWaves.styles
    ++ "\n      </style>\n      \n      <div class=\"container\">\n        "
    ++ topWaves.html
    ++ "\n        "
    ++ contentSection
    ++ "\n        "
    ++ bottomWaves.html
    ++ "\n      </div>\n    "

def renderParts (c : Config) (rs1 rs2 : RandStreams) : RenderParts :=
  let pos := position c
  let topWaves := if pos = "top" ∨ pos = "both"
    then createWaveSection c rs1 false else { html := "", styles := "" }
  let bottomWaves := if pos = "bottom" ∨ pos = "both"
    then createWaveSection c rs2 true else { html := "", styles := "" }
  let contentSection := if pos = "both" then contentSlotHtml else ""
  let containerHeight := if pos = "both" then "auto" else height c
  let responsiveBlock := responsiveBlockStr c (getResponsiveWaveHeight c)
  { topWaves := topWaves
    bottomWaves := bottomWaves
    contentSection := contentSection
    containerHeight := containerHeight
    responsiveBlock := responsiveBlock
    innerHTML := assembleInnerHTML c topWaves bottomWaves contentSection containerHeight
      (if pos = "both" then "auto" else "100px") responsiveBlock }

end Index

namespace TestVariant

/-- Getter `speed` of the variant (src/test.ts lines 45-47), identical to
the index variant's. -/
def speed (c : Config) : JSNum := jsParseFloat (jsOr c.speed "1")

/-- Getter `opacityRange` of the variant (lines 49-52), identical to the
index variant's. -/
def opacityRange (c : Config) : List JSNum :=
  (splitOnChar ',' (jsOr c.opacityRange "0.3,0.9").toList).map
    (fun v => jsParseFloat (String.mk (trimChars v)))

/-- Getter `waveCount` of the variant (lines 54-56), identical to the
index variant's. -/
def waveCount (c : Config) : JSNum := jsParseInt (jsOr c.waveCount "4")

/-- Getter `waveHeight` of the variant (lines 66-68). -/
def waveHeight (c : Config) : String := jsOr c.waveHeight "100px"

/-- Getter `waveColor` of the variant (lines 33-35). -/
def waveColor (c : Config) : String := jsOr c.waveColor "#1A237E"

/-- Getter `animationStyle` of the variant (lines 58-60). -/
def animationStyle (c : Config) : String := jsOr c.animationStyle "smooth"

/-- Embedding of the variant's `getAnimationDurations` (src/test.ts lines
78-91), textually identical to the index variant's. -/
def getAnimationDurations (baseSpeed count : JSNum) (rand : ℕ → ℚ) : List JSNum :=
  (List.range count.loopCount).map (fun (i : ℕ) =>
    let baseDuration : ℚ := 15 + i * 8
    let randomVariation : ℚ := (rand i - 0.5) * 10
    let finalDuration := (JSNum.fin (baseDuration + randomVariation)).div baseSpeed
    ((JSNum.fin 10).div baseSpeed).jsmax finalDuration)

/-- Embedding of the variant's `getAnimationDelays` (lines 93-103),
textually identical to the index variant's. -/
def getAnimationDelays (count : JSNum) (rand : ℕ → ℚ) : List JSNum :=
  (List.range count.loopCount).map (fun i => JSNum.fin (-(rand i * 30)))

/-- Embedding of the variant's `getOpacities` (lines 105-115), textually
identical to the index variant's. -/
def getOpacities (minOpacity maxOpacity count : JSNum) : List JSNum :=
  let step := (maxOpacity.sub minOpacity).div (count.sub (JSNum.fin 1))
  (List.range count.loopCount).map (fun (i : ℕ) => minOpacity.add (step.mul (JSNum.fin (i : ℚ))))

/-- Embedding of the variant's `getEasing` (lines 117-126), textually
identical to the index variant's: the same object-literal lookup with
`||` fallback, including the members inherited from `Object.prototype`. -/
def getEasing (style : String) : JsValue :=
  if style = "smooth" then JsValue.str "cubic-bezier(.4,0,.2,1)"
  else if style = "linear" then JsValue.str "linear"
  else if style = "ease-in-out" then JsValue.str "ease-in-out"
  else if style = "bouncy" then JsValue.str "cubic-bezier(.68,-0.55,.265,1.55)"
  else if style = "gentle" then JsValue.str "cubic-bezier(.25,.46,.45,.94)"
  else if style ∈ objectPrototypeKeys then JsValue.inherited style
  else JsValue.str "cubic-bezier(.4,0,.2,1)"

/-- The variant's derived view-box width (src/test.ts line 141):
`Math.max(100, viewBoxHeight * 3.75)` where `viewBoxHeight` is
`Math.max(20, parseFloat(waveHeight) * 0.3)` (line 140). -/
def viewBoxHeight (c : Config) : JSNum :=
  (JSNum.fin 20).jsmax ((jsParseFloat (waveHeight c)).mul (JSNum.fin 0.3))

/-- The variant's derived view-box width (line 141). -/
def viewBoxWidth (c : Config) : JSNum :=
  (JSNum.fin 100).jsmax ((viewBoxHeight c).mul (JSNum.fin 3.75))

/-- Wave-instance references of one section in the variant (the
`waveElements` local of its `createWaveSection`, lines 145-149):
`waveCount` positioned `use` references with offsets proportional to the
derived view box. -/
def waveElementsStr (c : Config) (rs : RandStreams) : String :=
  String.join (((List.range (waveCount c).loopCount)).map (fun (i : ℕ) =>
    let randomX := ((viewBoxWidth c).mul (JSNum.fin 0.32)).add
      ((JSNum.fin (rs.gx i - 0.5)).mul ((viewBoxWidth c).mul (JSNum.fin 0.13)))
    let randomY := ((JSNum.fin (i : ℚ)).mul ((viewBoxHeight c).mul (JSNum.fin 0.025))).add
      ((JSNum.fin (rs.gy i - 0.5)).mul ((viewBoxHeight c).mul (JSNum.fin 0.05)))
    "<use xlink:href=\"#gentle-wave\" x=\"" ++ randomX.toJsString
      ++ "\" y=\"" ++ randomY.toJsString ++ "\" />"))

/-- Per-wave style rules of one section in the variant (the `waveStyles`
local of its `createWaveSection`, lines 151-162), textually identical to
the index variant's rules. -/
def waveStylesStr (c : Config) (rs : RandStreams) (isBottom : Bool) : String :=
  let durations := getAnimationDurations (speed c) (waveCount c) rs.dur
  let delays := getAnimationDelays (waveCount c) rs.del
  let opacities := getOpacities ((opacityRange c).getD 0 JSNum.nan)
    ((opacityRange c).getD 1 JSNum.nan) (waveCount c)
  String.join (((List.range (waveCount c).loopCount)).map (fun (i : ℕ) =>
    let animationName := "wave-animation-" ++ toString (i % 4 + 1)
    let sectionClass := if isBottom then "bottom-waves" else "top-waves"
    "\n        ." ++ sectionClass ++ " .parallax use:nth-child(" ++ toString (i + 1)
      ++ ") \x7b\n          fill: " ++ waveColor c
      ++ ";\n          opacity: " ++ (opacities.getD i JSNum.nan).toJsString
      ++ ";\n          animation: " ++ animationName ++ " "
      ++ (durations.getD i JSNum.nan).toJsString ++ "s "
      ++ (getEasing (animationStyle c)).interp
      ++ " infinite;\n          animation-delay: "
      ++ (delays.getD i JSNum.nan).toJsString ++ "s;\n        \x7d\n      "))

end TestVariant

/-! Helper lemmas shared by the claim theorems. -/

/-- Substring containment on strings, stated on the underlying character
lists. -/
def strInfix (a b : String) : Prop := a.data <:+: b.data

theorem strInfix_self (a : String) : strInfix a a := List.infix_rfl

theorem strInfix_append_right (a b c : String) (h : strInfix a b) : strInfix a (b ++ c) := by
  unfold strInfix at *
  rw [String.data_append]
  obtain ⟨s, t, hst⟩ := h
  exact ⟨s, t ++ c.data, by rw [← hst]; simp⟩

theorem strInfix_append_left (a b c : String) (h : strInfix a c) : strInfix a (b ++ c) := by
  unfold strInfix at *
  rw [String.data_append]
  obtain ⟨s, t, hst⟩ := h
  exact ⟨b.data ++ s, t, by rw [← hst]; simp⟩

theorem strInfix_trans (a b c : String) (h1 : strInfix a b) (h2 : strInfix b c) :
    strInfix a c := List.IsInfix.trans h1 h2

theorem loopCount_natCast (n : ℕ) : (JSNum.fin (n : ℚ)).loopCount = n := by
  rcases Nat.eq_zero_or_pos n with h | h
  · subst h; simp [JSNum.loopCount]
  · simp only [JSNum.loopCount]
    rw [if_pos (by exact_mod_cast h), Int.ceil_natCast]
    simp

theorem loopCount_nonpos (q : ℚ) (hq : q ≤ 0) : (JSNum.fin q).loopCount = 0 := by
  simp only [JSNum.loopCount]
  rw [if_neg (by linarith)]

/-- C1: the claim says that for a configuration with `waveCount = 1` the
opacity generation neither throws nor produces `NaN`.  The code has no
guard: the step is `(max - min) / (count - 1) = 0.6 / 0 = Infinity` for
the default range, and `Infinity * 0 = NaN` at index `0`, so the single
produced opacity is `NaN`.  This theorem evaluates the embedded code at
the failing configuration (`wave-count="1"`, default opacity range). -/
theorem c1_waveCount_one_yields_nan_opacity :
    Index.getOpacities
        ((Index.opacityRange { waveCount := some "1" }).getD 0 JSNum.nan)
        ((Index.opacityRange { waveCount := some "1" }).getD 1 JSNum.nan)
        (Index.waveCount { waveCount := some "1" })
      = [JSNum.nan] := by decide

/-- C4 counterexample: the claim places every generated delay in the
half-open interval `[-30, 0)`.  With the admissible random draw `0`
(`Math.random()` ranges over `[0,1)`), the generated delay is `-(0 · 30)
= 0`, which is not below `0`, so the claimed interval is wrong at its
right end. -/
theorem c4_delays_interval_counterexample :
    (0 : ℚ) ≤ 0 ∧ (0 : ℚ) < 1 ∧
    ¬ (∀ x ∈ Index.getAnimationDelays (JSNum.fin 1) (fun _ => (0 : ℚ)),
        ∃ q : ℚ, x = JSNum.fin q ∧ -30 ≤ q ∧ q < 0) := by
  refine ⟨le_refl 0, by norm_num, ?_⟩
  intro h
  have hl : Index.getAnimationDelays (JSNum.fin 1) (fun _ => (0 : ℚ))
      = [JSNum.fin 0] := by decide
  have hm : JSNum.fin 0 ∈ Index.getAnimationDelays (JSNum.fin 1) (fun _ => (0 : ℚ)) := by
    rw [hl]; exact List.mem_singleton_self _
  obtain ⟨q, hq, _, h2⟩ := h (JSNum.fin 0) hm
  cases hq
  exact absurd h2 (by norm_num)

/-- C4 amended: for every wave count `n` and every admissible random
source, `getAnimationDelays` returns a sequence of length `n` every
element of which lies in the half-open interval `(-30, 0]` seconds (the
code computes `-(Math.random() · 30)` with `Math.random() ∈ [0,1)`, so
`0` is attained and `-30` is not). -/
theorem c4_delays_in_Ioc (n : ℕ) (rand : ℕ → ℚ)
    (hr : ∀ i, 0 ≤ rand i ∧ rand i < 1) :
    (Index.getAnimationDelays (JSNum.fin n) rand).length = n
    ∧ ∀ x ∈ Index.getAnimationDelays (JSNum.fin n) rand,
        ∃ q : ℚ, x = JSNum.fin q ∧ -30 < q ∧ q ≤ 0 := by
  constructor
  · simp [Index.getAnimationDelays, loopCount_natCast]
  · intro x hx
    unfold Index.getAnimationDelays at hx
    rw [List.mem_map] at hx
    obtain ⟨i, _, hi⟩ := hx
    refine ⟨-(rand i * 30), hi.symm, ?_, ?_⟩
    · have := (hr i).2; nlinarith
    · have := (hr i).1; nlinarith

/-- C4 witness: the amended statement applied at wave count 1 with the
constant admissible draw 1/2. -/
theorem c4_delays_in_Ioc_witness :
    (Index.getAnimationDelays (JSNum.fin (1 : ℕ)) (fun _ => (1/2 : ℚ))).length = 1
    ∧ ∀ x ∈ Index.getAnimationDelays (JSNum.fin (1 : ℕ)) (fun _ => (1/2 : ℚ)),
        ∃ q : ℚ, x = JSNum.fin q ∧ -30 < q ∧ q ≤ 0 :=
  c4_delays_in_Ioc 1 (fun _ => (1/2 : ℚ)) (fun _ => by norm_num)

/-- C5 counterexample: the claim says every input other than the five
documented names maps to the same result as `smooth`.  The input
`constructor` is such an "other" string, yet the object-literal lookup
finds the member inherited from `Object.prototype` — a truthy value the
`||` fallback does not replace — so `getEasing "constructor"` is not
`smooth`'s curve. -/
theorem c5_easing_prototype_counterexample :
    "constructor" ∉ (["smooth", "linear", "ease-in-out", "bouncy", "gentle"] : List String)
    ∧ Index.getEasing "constructor" ≠ Index.getEasing "smooth" := by
  exact ⟨by decide, by decide⟩

/-- C5 amended: each of the five documented style names maps to its
distinct non-empty timing-function string; every other input string
except the `Object.prototype` property names maps to the same result as
`smooth`; each `Object.prototype` property name yields the inherited
member instead of the fallback. -/
theorem c5_easing_lookup_amended :
    (Index.getEasing "smooth" = JsValue.str "cubic-bezier(.4,0,.2,1)"
      ∧ Index.getEasing "linear" = JsValue.str "linear"
      ∧ Index.getEasing "ease-in-out" = JsValue.str "ease-in-out"
      ∧ Index.getEasing "bouncy" = JsValue.str "cubic-bezier(.68,-0.55,.265,1.55)"
      ∧ Index.getEasing "gentle" = JsValue.str "cubic-bezier(.25,.46,.45,.94)")
    ∧ List.Pairwise (fun a b => a ≠ b)
        ["cubic-bezier(.4,0,.2,1)", "linear", "ease-in-out",
          "cubic-bezier(.68,-0.55,.265,1.55)", "cubic-bezier(.25,.46,.45,.94)"]
    ∧ (∀ s ∈ (["cubic-bezier(.4,0,.2,1)", "linear", "ease-in-out",
          "cubic-bezier(.68,-0.55,.265,1.55)", "cubic-bezier(.25,.46,.45,.94)"] : List String),
        s ≠ "")
    ∧ (∀ s : String,
        s ∉ (["smooth", "linear", "ease-in-out", "bouncy", "gentle"] : List String) →
        s ∉ objectPrototypeKeys →
        Index.getEasing s = Index.getEasing "smooth")
    ∧ (∀ s ∈ objectPrototypeKeys,
        Index.getEasing s = JsValue.inherited s
        ∧ Index.getEasing s ≠ Index.getEasing "smooth") := by
  refine ⟨by decide, by decide, by decide, ?_, by decide⟩
  intro s hs hp
  simp only [List.mem_cons, List.not_mem_nil, or_false, not_or] at hs
  obtain ⟨h1, h2, h3, h4, h5⟩ := hs
  unfold Index.getEasing
  rw [if_neg h1, if_neg h2, if_neg h3, if_neg h4, if_neg h5, if_neg hp]
  rfl

/-- C5 witness: the amended lookup theorem applied at the unrecognized
non-prototype name `nonexistent` and at the prototype name `toString`. -/
theorem c5_easing_lookup_amended_witness :
    ("nonexistent" ∉ (["smooth", "linear", "ease-in-out", "bouncy", "gentle"] : List String)
      ∧ "nonexistent" ∉ objectPrototypeKeys
      ∧ Index.getEasing "nonexistent" = Index.getEasing "smooth")
    ∧ ("toString" ∈ objectPrototypeKeys
      ∧ Index.getEasing "toString" = JsValue.inherited "toString"
      ∧ Index.getEasing "toString" ≠ Index.getEasing "smooth") :=
  ⟨⟨by decide, by decide,
      c5_easing_lookup_amended.2.2.2.1 "nonexistent" (by decide) (by decide)⟩,
    ⟨by decide, (c5_easing_lookup_amended.2.2.2.2 "toString" (by decide)).1,
      (c5_easing_lookup_amended.2.2.2.2 "toString" (by decide)).2⟩⟩

/-- C9: the pure parameter generators of the two source variants are
extensionally equal — on identical configuration values and identical
random-source outputs the variant in `src/test.ts` returns exactly the
results of the variant in `src/src/index.ts`, for all four generator
functions. -/
theorem c9_variants_extensionally_equal :
    (∀ (baseSpeed count : JSNum) (rand : ℕ → ℚ),
        TestVariant.getAnimationDurations baseSpeed count rand
          = Index.getAnimationDurations baseSpeed count rand)
    ∧ (∀ (count : JSNum) (rand : ℕ → ℚ),
        TestVariant.getAnimationDelays count rand = Index.getAnimationDelays count rand)
    ∧ (∀ (minOpacity maxOpacity count : JSNum),
        TestVariant.getOpacities minOpacity maxOpacity count
          = Index.getOpacities minOpacity maxOpacity count)
    ∧ (∀ style : String, TestVariant.getEasing style = Index.getEasing style) :=
  ⟨fun _ _ _ => rfl, fun _ _ => rfl, fun _ _ _ => rfl, fun _ => rfl⟩

/-- C10: for every configuration whose parsed `waveCount` is a number
at most `0`, the three generators return the empty sequence, and wave
section composition produces zero wave-instance references and zero
per-wave style rules — in the index variant (`createWaveSection`) and in
the `src/test.ts` variant's element and style composition alike. -/
theorem c10_nonpositive_count_empty (c : Config) (rs : RandStreams) (isBottom : Bool)
    (q : ℚ) (hq : Index.waveCount c = JSNum.fin q) (h0 : q ≤ 0) :
    Index.getAnimationDurations (Index.speed c) (Index.waveCount c) rs.dur = []
    ∧ Index.getAnimationDelays (Index.waveCount c) rs.del = []
    ∧ Index.getOpacities ((Index.opacityRange c).getD 0 JSNum.nan)
        ((Index.opacityRange c).getD 1 JSNum.nan) (Index.waveCount c) = []
    ∧ Index.waveElementsStr c rs = ""
    ∧ (Index.createWaveSection c rs isBottom).styles = ""
    ∧ TestVariant.waveElementsStr c rs = ""
    ∧ TestVariant.waveStylesStr c rs isBottom = "" := by
  have hc : (Index.waveCount c).loopCount = 0 := by
    rw [hq]; exact loopCount_nonpos q h0
  have hc' : (TestVariant.waveCount c).loopCount = 0 := hc
  refine ⟨?_, ?_, ?_, ?_, ?_, ?_, ?_⟩
  · unfold Index.getAnimationDurations; rw [hc]; rfl
  · unfold Index.getAnimationDelays; rw [hc]; rfl
  · unfold Index.getOpacities; rw [hc]; rfl
  · unfold Index.waveElementsStr; rw [hc]; rfl
  · show Index.waveStylesStr c rs isBottom = ""
    unfold Index.waveStylesStr; rw [hc]; rfl
  · unfold TestVariant.waveElementsStr; rw [hc']; rfl
  · unfold TestVariant.waveStylesStr; rw [hc']; rfl

/-- C10 witness: the theorem applied at the configuration
`wave-count="0"` (which parses to `0`). -/
theorem c10_nonpositive_count_empty_witness :
    Index.waveCount { waveCount := some "0" } = JSNum.fin 0
    ∧ ((0 : ℚ) ≤ 0)
    ∧ (Index.getAnimationDurations (Index.speed { waveCount := some "0" })
          (Index.waveCount { waveCount := some "0" }) (fun _ => (0:ℚ)) = []
        ∧ Index.getAnimationDelays (Index.waveCount { waveCount := some "0" }) (fun _ => (0:ℚ)) = []
        ∧ Index.getOpacities
            ((Index.opacityRange { waveCount := some "0" }).getD 0 JSNum.nan)
            ((Index.opacityRange { waveCount := some "0" }).getD 1 JSNum.nan)
            (Index.waveCount { waveCount := some "0" }) = []
        ∧ Index.waveElementsStr { waveCount := some "0" }
            ⟨fun _ => (0:ℚ), fun _ => (0:ℚ), fun _ => (0:ℚ), fun _ => (0:ℚ)⟩ = ""
        ∧ (Index.createWaveSection { waveCount := some "0" }
            ⟨fun _ => (0:ℚ), fun _ => (0:ℚ), fun _ => (0:ℚ), fun _ => (0:ℚ)⟩ false).styles = ""
        ∧ TestVariant.waveElementsStr { waveCount := some "0" }
            ⟨fun _ => (0:ℚ), fun _ => (0:ℚ), fun _ => (0:ℚ), fun _ => (0:ℚ)⟩ = ""
        ∧ TestVariant.waveStylesStr { waveCount := some "0" }
            ⟨fun _ => (0:ℚ), fun _ => (0:ℚ), fun _ => (0:ℚ), fun _ => (0:ℚ)⟩ false = "") :=
  ⟨by decide, le_refl 0,
    c10_nonpositive_count_empty { waveCount := some "0" }
      ⟨fun _ => (0:ℚ), fun _ => (0:ℚ), fun _ => (0:ℚ), fun _ => (0:ℚ)⟩ false 0 (by decide)
      (le_refl 0)⟩

/-- Normal form of `getOpacities` on a finite range and a wave count
`n ≥ 2`: the linear interpolation sequence. -/
theorem getOpacities_eq_map (a b : ℚ) (n : ℕ) (hn : 2 ≤ n) :
    Index.getOpacities (JSNum.fin a) (JSNum.fin b) (JSNum.fin (n : ℚ)) =
      (List.range n).map (fun (i : ℕ) => JSNum.fin (a + (b - a) / ((n : ℚ) - 1) * i)) := by
  have hne : ((n : ℚ) - 1) ≠ 0 := by
    have h2 : (2 : ℚ) ≤ (n : ℚ) := by exact_mod_cast hn
    intro hcon; rw [sub_eq_zero] at hcon; rw [hcon] at h2; norm_num at h2
  have hstep : ((JSNum.fin b).sub (JSNum.fin a)).div
      ((JSNum.fin (n : ℚ)).sub (JSNum.fin 1)) = JSNum.fin ((b - a) / ((n : ℚ) - 1)) := by
    simp only [JSNum.sub, JSNum.neg, JSNum.add, JSNum.div]
    rw [if_neg (by rw [← sub_eq_add_neg]; exact hne)]
    rw [← sub_eq_add_neg, ← sub_eq_add_neg]
  simp only [Index.getOpacities]
  rw [loopCount_natCast, hstep]
  refine congrArg (fun f => List.map f (List.range n)) ?_
  funext i
  simp only [JSNum.mul, JSNum.add]

/-- C2: for every wave count `n ≥ 2` and every finite opacity range
`(a, b)` with `a ≤ b`, `getOpacities` returns a non-decreasing sequence
of length `n` whose first element is `a`, whose last element is `b`, and
whose element at index `i` is `a + i·(b − a)/(n − 1)`. -/
theorem c2_opacities_linear_interpolation (a b : ℚ) (hab : a ≤ b) (n : ℕ) (hn : 2 ≤ n) :
    (Index.getOpacities (JSNum.fin a) (JSNum.fin b) (JSNum.fin (n : ℚ))).length = n
    ∧ (Index.getOpacities (JSNum.fin a) (JSNum.fin b) (JSNum.fin (n : ℚ))).head?
        = some (JSNum.fin a)
    ∧ (Index.getOpacities (JSNum.fin a) (JSNum.fin b) (JSNum.fin (n : ℚ))).getLast?
        = some (JSNum.fin b)
    ∧ (∀ i, i < n →
        (Index.getOpacities (JSNum.fin a) (JSNum.fin b) (JSNum.fin (n : ℚ)))[i]?
          = some (JSNum.fin (a + i * (b - a) / ((n : ℚ) - 1))))
    ∧ List.Pairwise (fun x y => JSNum.leb x y = true)
        (Index.getOpacities (JSNum.fin a) (JSNum.fin b) (JSNum.fin (n : ℚ))) := by
  have hne : ((n : ℚ) - 1) ≠ 0 := by
    have h2 : (2 : ℚ) ≤ (n : ℚ) := by exact_mod_cast hn
    intro hcon; rw [sub_eq_zero] at hcon; rw [hcon] at h2; norm_num at h2
  have hsnn : 0 ≤ (b - a) / ((n : ℚ) - 1) := by
    apply div_nonneg (by linarith)
    have h2 : (2 : ℚ) ≤ (n : ℚ) := by exact_mod_cast hn
    linarith
  rw [getOpacities_eq_map a b n hn]
  refine ⟨by simp, ?_, ?_, ?_, ?_⟩
  · rw [List.head?_eq_getElem?, List.getElem?_map, List.getElem?_range (by omega)]
    simp
  · rw [List.getLast?_eq_getElem?]
    simp only [List.length_map, List.length_range]
    rw [List.getElem?_map, List.getElem?_range (by omega)]
    simp only [Option.map_some', Option.some.injEq, JSNum.fin.injEq]
    have hcast : (((n - 1 : ℕ)) : ℚ) = (n : ℚ) - 1 := by
      push_cast [Nat.cast_sub (by omega : 1 ≤ n)]; ring
    rw [hcast, div_mul_cancel₀ _ hne]
    ring
  · intro i hi
    rw [List.getElem?_map, List.getElem?_range hi]
    simp only [Option.map_some', Option.some.injEq, JSNum.fin.injEq]
    ring
  · refine List.Pairwise.map _ ?_ (List.pairwise_lt_range n)
    intro i j hij
    simp only [JSNum.leb, decide_eq_true_eq]
    have : ((i : ℚ)) ≤ (j : ℚ) := by exact_mod_cast le_of_lt hij
    nlinarith

/-- C2 witness: the interpolation theorem applied at the range `(0, 1)`
and wave count `2`. -/
theorem c2_opacities_linear_interpolation_witness :
    ((0 : ℚ) ≤ 1 ∧ 2 ≤ 2)
    ∧ ((Index.getOpacities (JSNum.fin 0) (JSNum.fin 1) (JSNum.fin ((2 : ℕ) : ℚ))).length = 2
      ∧ (Index.getOpacities (JSNum.fin 0) (JSNum.fin 1) (JSNum.fin ((2 : ℕ) : ℚ))).head?
          = some (JSNum.fin 0)
      ∧ (Index.getOpacities (JSNum.fin 0) (JSNum.fin 1) (JSNum.fin ((2 : ℕ) : ℚ))).getLast?
          = some (JSNum.fin 1)
      ∧ (∀ i : ℕ, i < 2 →
          (Index.getOpacities (JSNum.fin 0) (JSNum.fin 1) (JSNum.fin ((2 : ℕ) : ℚ)))[i]?
            = some (JSNum.fin (0 + i * (1 - 0) / (((2 : ℕ) : ℚ) - 1))))
      ∧ List.Pairwise (fun x y => JSNum.leb x y = true)
          (Index.getOpacities (JSNum.fin 0) (JSNum.fin 1) (JSNum.fin ((2 : ℕ) : ℚ)))) :=
  ⟨⟨by norm_num, le_refl 2⟩,
    c2_opacities_linear_interpolation 0 1 (by norm_num) 2 (le_refl 2)⟩

/-- C3: for every finite speed `s > 0`, every wave count `n ≥ 1` and
every admissible random source, `getAnimationDurations` returns a
sequence of length `n` whose element at index `i` equals
`max(10/s, (15 + 8·i + j)/s)` for some jitter `j ∈ [−5, +5]` (the code
draws `j = (Math.random() − 0.5)·10 ∈ [−5, 5)`), and in particular every
element is at least `10/s`. -/
theorem c3_durations_formula (s : ℚ) (hs : 0 < s) (n : ℕ) (_hn : 1 ≤ n)
    (rand : ℕ → ℚ) (hr : ∀ i, 0 ≤ rand i ∧ rand i < 1) :
    (Index.getAnimationDurations (JSNum.fin s) (JSNum.fin (n : ℚ)) rand).length = n
    ∧ ∀ i : ℕ, i < n → ∃ j : ℚ, -5 ≤ j ∧ j ≤ 5
        ∧ (Index.getAnimationDurations (JSNum.fin s) (JSNum.fin (n : ℚ)) rand)[i]?
            = some (JSNum.fin (max (10 / s) ((15 + 8 * i + j) / s)))
        ∧ 10 / s ≤ max (10 / s) ((15 + 8 * i + j) / s) := by
  have hne : s ≠ 0 := ne_of_gt hs
  constructor
  · simp [Index.getAnimationDurations, loopCount_natCast]
  · intro i hi
    refine ⟨(rand i - 0.5) * 10, by nlinarith [(hr i).1], by nlinarith [(hr i).2], ?_,
      le_max_left _ _⟩
    unfold Index.getAnimationDurations
    rw [loopCount_natCast, List.getElem?_map, List.getElem?_range hi]
    simp only [Option.map_some', Option.some.injEq]
    simp only [JSNum.div, JSNum.jsmax, if_neg hne]
    congr 1
    ring_nf

/-- C3 witness: the duration theorem applied at speed 1, wave count 1 and
the constant admissible draw 1/2. -/
theorem c3_durations_formula_witness :
    ((0 : ℚ) < 1 ∧ (1 : ℕ) ≤ 1 ∧ ∀ _i : ℕ, (0 : ℚ) ≤ 1/2 ∧ (1/2 : ℚ) < 1)
    ∧ ((Index.getAnimationDurations (JSNum.fin 1) (JSNum.fin ((1 : ℕ) : ℚ))
          (fun _ => (1/2 : ℚ))).length = 1
      ∧ ∀ i : ℕ, i < 1 → ∃ j : ℚ, -5 ≤ j ∧ j ≤ 5
          ∧ (Index.getAnimationDurations (JSNum.fin 1) (JSNum.fin ((1 : ℕ) : ℚ))
              (fun _ => (1/2 : ℚ)))[i]?
              = some (JSNum.fin (max (10 / 1) ((15 + 8 * i + j) / 1)))
          ∧ 10 / 1 ≤ max ((10 : ℚ) / 1) ((15 + 8 * i + j) / 1)) :=
  ⟨⟨by norm_num, le_refl 1, fun _ => ⟨by norm_num, by norm_num⟩⟩,
    c3_durations_formula 1 (by norm_num) 1 (le_refl 1) (fun _ => (1/2 : ℚ))
      (fun _ => ⟨by norm_num, by norm_num⟩)⟩

/-- C8: in the index variant, a configuration whose `responsive`
attribute is the literal string `"false"` renders with no breakpoint
overrides: the responsive heights stay the raw wave-height string and
the breakpoint-scoped block of the style output is the empty string. -/
theorem c8_responsive_false_omits_breakpoints (c : Config) (rs1 rs2 : RandStreams)
    (h : c.responsive = some "false") :
    Index.getResponsiveWaveHeight c = RespHeights.str (Index.waveHeight c)
    ∧ (Index.renderParts c rs1 rs2).responsiveBlock = "" := by
  have hresp : Index.responsive c = false := by
    unfold Index.responsive
    rw [h]
    simp
  have hrh : Index.getResponsiveWaveHeight c = RespHeights.str (Index.waveHeight c) := by
    unfold Index.getResponsiveWaveHeight
    rw [hresp]
    simp
  refine ⟨hrh, ?_⟩
  show Index.responsiveBlockStr c (Index.getResponsiveWaveHeight c) = ""
  rw [hrh]
  rfl

/-- C8 witness: the theorem applied at the configuration
`responsive="false"` with trivial random streams. -/
theorem c8_responsive_false_omits_breakpoints_witness :
    Index.getResponsiveWaveHeight { responsive := some "false" }
        = RespHeights.str (Index.waveHeight { responsive := some "false" })
    ∧ (Index.renderParts { responsive := some "false" }
        ⟨fun _ => (0:ℚ), fun _ => (0:ℚ), fun _ => (0:ℚ), fun _ => (0:ℚ)⟩
        ⟨fun _ => (0:ℚ), fun _ => (0:ℚ), fun _ => (0:ℚ), fun _ => (0:ℚ)⟩).responsiveBlock = "" :=
  c8_responsive_false_omits_breakpoints { responsive := some "false" }
    ⟨fun _ => (0:ℚ), fun _ => (0:ℚ), fun _ => (0:ℚ), fun _ => (0:ℚ)⟩
    ⟨fun _ => (0:ℚ), fun _ => (0:ℚ), fun _ => (0:ℚ), fun _ => (0:ℚ)⟩ rfl

/-- C7: when `position` resolves to `both`, the render output contains
exactly one content-slot section (the single `contentSection` fragment
placed between the two wave fragments of the committed markup) plus both
a top and a bottom wave section; when it resolves to `top`, it contains
only the top wave section, an empty content slot and an empty bottom
section. -/
theorem c7_position_section_composition (c : Config) (rs1 rs2 : RandStreams) :
    (Index.position c = "both" →
      (Index.renderParts c rs1 rs2).contentSection = Index.contentSlotHtml
      ∧ Index.contentSlotHtml ≠ ""
      ∧ (Index.renderParts c rs1 rs2).topWaves = Index.createWaveSection c rs1 false
      ∧ (Index.renderParts c rs1 rs2).bottomWaves = Index.createWaveSection c rs2 true)
    ∧ (Index.position c = "top" →
      (Index.renderParts c rs1 rs2).topWaves = Index.createWaveSection c rs1 false
      ∧ (Index.renderParts c rs1 rs2).contentSection = ""
      ∧ (Index.renderParts c rs1 rs2).bottomWaves = WaveSection.mk "" "") := by
  constructor
  · intro h
    refine ⟨?_, by decide, ?_, ?_⟩
    · show (if Index.position c = "both" then Index.contentSlotHtml else "")
        = Index.contentSlotHtml
      rw [if_pos h]
    · show (if Index.position c = "top" ∨ Index.position c = "both"
          then Index.createWaveSection c rs1 false else WaveSection.mk "" "")
        = Index.createWaveSection c rs1 false
      rw [if_pos (Or.inr h)]
    · show (if Index.position c = "bottom" ∨ Index.position c = "both"
          then Index.createWaveSection c rs2 true else WaveSection.mk "" "")
        = Index.createWaveSection c rs2 true
      rw [if_pos (Or.inr h)]
  · intro h
    refine ⟨?_, ?_, ?_⟩
    · show (if Index.position c = "top" ∨ Index.position c = "both"
          then Index.createWaveSection c rs1 false else WaveSection.mk "" "")
        = Index.createWaveSection c rs1 false
      rw [if_pos (Or.inl h)]
    · show (if Index.position c = "both" then Index.contentSlotHtml else "") = ""
      rw [h, if_neg (by decide)]
    · show (if Index.position c = "bottom" ∨ Index.position c = "both"
          then Index.createWaveSection c rs2 true else WaveSection.mk "" "")
        = WaveSection.mk "" ""
      rw [h, if_neg (by decide)]

/-- C7 witness: the `both` branch of the composition theorem applied at
the configuration `position="both"` with trivial random streams. -/
theorem c7_position_section_composition_witness :
    (Index.renderParts { position := some "both" }
        ⟨fun _ => (0:ℚ), fun _ => (0:ℚ), fun _ => (0:ℚ), fun _ => (0:ℚ)⟩
        ⟨fun _ => (0:ℚ), fun _ => (0:ℚ), fun _ => (0:ℚ), fun _ => (0:ℚ)⟩).contentSection
      = Index.contentSlotHtml
    ∧ Index.contentSlotHtml ≠ ""
    ∧ (Index.renderParts { position := some "both" }
        ⟨fun _ => (0:ℚ), fun _ => (0:ℚ), fun _ => (0:ℚ), fun _ => (0:ℚ)⟩
        ⟨fun _ => (0:ℚ), fun _ => (0:ℚ), fun _ => (0:ℚ), fun _ => (0:ℚ)⟩).topWaves
      = Index.createWaveSection { position := some "both" }
          ⟨fun _ => (0:ℚ), fun _ => (0:ℚ), fun _ => (0:ℚ), fun _ => (0:ℚ)⟩ false
    ∧ (Index.renderParts { position := some "both" }
        ⟨fun _ => (0:ℚ), fun _ => (0:ℚ), fun _ => (0:ℚ), fun _ => (0:ℚ)⟩
        ⟨fun _ => (0:ℚ), fun _ => (0:ℚ), fun _ => (0:ℚ), fun _ => (0:ℚ)⟩).bottomWaves
      = Index.createWaveSection { position := some "both" }
          ⟨fun _ => (0:ℚ), fun _ => (0:ℚ), fun _ => (0:ℚ), fun _ => (0:ℚ)⟩ true :=
  (c7_position_section_composition { position := some "both" }
    ⟨fun _ => (0:ℚ), fun _ => (0:ℚ), fun _ => (0:ℚ), fun _ => (0:ℚ)⟩
    ⟨fun _ => (0:ℚ), fun _ => (0:ℚ), fun _ => (0:ℚ), fun _ => (0:ℚ)⟩).1 rfl

theorem strFoldlAppend_shift (l : List String) (a : String) :
    List.foldl (fun r s => r ++ s) a l = a ++ List.foldl (fun r s => r ++ s) "" l := by
  induction l generalizing a with
  | nil => simp
  | cons b t ih =>
      simp only [List.foldl_cons]
      rw [ih (a ++ b), ih ("" ++ b)]
      simp [String.append_assoc]

theorem strJoin_cons (a : String) (l : List String) :
    String.join (a :: l) = a ++ String.join l := by
  simp only [String.join, List.foldl_cons]
  rw [strFoldlAppend_shift l ("" ++ a)]
  simp

/-- Durations with `NaN` speed: every iteration divides by `NaN` and
takes `Math.max` against `NaN`, so the whole sequence is `NaN`. -/
theorem getAnimationDurations_nan_speed (count : JSNum) (rand : ℕ → ℚ) :
    Index.getAnimationDurations JSNum.nan count rand
      = List.replicate count.loopCount JSNum.nan := by
  have h : Index.getAnimationDurations JSNum.nan count rand
      = (List.range count.loopCount).map (fun _ => JSNum.nan) := rfl
  rw [h, List.map_const', List.length_range]

/-- With `NaN` speed and at least one wave, the per-wave style rules
contain the text `NaN` (the first rule interpolates the first duration,
which is `NaN`). -/
theorem nan_infix_waveStyles (c : Config) (rs : RandStreams) (isBottom : Bool)
    (hsp : Index.speed c = JSNum.nan) (hcount : 1 ≤ (Index.waveCount c).loopCount) :
    strInfix "NaN" (Index.waveStylesStr c rs isBottom) := by
  obtain ⟨k, hk⟩ : ∃ k, (Index.waveCount c).loopCount = k + 1 :=
    ⟨(Index.waveCount c).loopCount - 1, by omega⟩
  simp only [Index.waveStylesStr, hsp, getAnimationDurations_nan_speed, hk]
  rw [List.range_succ_eq_map, List.map_cons, strJoin_cons]
  apply strInfix_append_right
  simp only [List.replicate_succ, List.getD_cons_zero, JSNum.toJsString]
  apply strInfix_append_right
  apply strInfix_append_right
  apply strInfix_append_right
  apply strInfix_append_right
  apply strInfix_append_right
  apply strInfix_append_left
  exact strInfix_self _

theorem strInfix_assemble_of_top (c : Config) (top bottom : WaveSection)
    (cs ch mh rb x : String) (h : strInfix x top.styles) :
    strInfix x (Index.assembleInnerHTML c top bottom cs ch mh rb) := by
  unfold Index.assembleInnerHTML
  apply strInfix_append_right
  apply strInfix_append_right
  apply strInfix_append_right
  apply strInfix_append_right
  apply strInfix_append_right
  apply strInfix_append_right
  apply strInfix_append_right
  apply strInfix_append_right
  apply strInfix_append_right
  apply strInfix_append_left
  exact h

theorem strInfix_assemble_of_bottom (c : Config) (top bottom : WaveSection)
    (cs ch mh rb x : String) (h : strInfix x bottom.styles) :
    strInfix x (Index.assembleInnerHTML c top bottom cs ch mh rb) := by
  unfold Index.assembleInnerHTML
  apply strInfix_append_right
  apply strInfix_append_right
  apply strInfix_append_right
  apply strInfix_append_right
  apply strInfix_append_right
  apply strInfix_append_right
  apply strInfix_append_right
  apply strInfix_append_left
  exact h

/-- C6: for every configuration whose `speed` attribute is a non-empty
string that parses to `NaN` (a non-numeric string) and which renders at
least one wave in a recognized position, the pipeline produces output
rather than an exception: the parsed speed is the invalid marker `NaN`,
it propagates through `getAnimationDurations` (every duration is `NaN`),
and the committed style output contains the text `NaN`.  In the
embedding every stage is a total function, mirroring the absence of any
throwing operation on this path in the source. -/
theorem c6_nan_speed_renders_not_throws (c : Config) (s : String) (hs : c.speed = some s)
    (hne : s ≠ "") (hnan : jsParseFloat s = JSNum.nan) (rs1 rs2 : RandStreams)
    (hcount : 1 ≤ (Index.waveCount c).loopCount)
    (hpos : Index.position c = "top" ∨ Index.position c = "bottom"
      ∨ Index.position c = "both") :
    Index.speed c = JSNum.nan
    ∧ (∀ rand : ℕ → ℚ, Index.getAnimationDurations (Index.speed c) (Index.waveCount c) rand
        = List.replicate (Index.waveCount c).loopCount JSNum.nan)
    ∧ strInfix "NaN" ((Index.renderParts c rs1 rs2).innerHTML) := by
  have hsp : Index.speed c = JSNum.nan := by
    unfold Index.speed jsOr
    rw [hs]
    show jsParseFloat (if s = "" then "1" else s) = JSNum.nan
    rw [if_neg hne]
    exact hnan
  refine ⟨hsp, fun rand => by rw [hsp]; exact getAnimationDurations_nan_speed _ rand, ?_⟩
  have hstyles1 := nan_infix_waveStyles c rs1 false hsp hcount
  have hstyles2 := nan_infix_waveStyles c rs2 true hsp hcount
  show strInfix "NaN" (Index.assembleInnerHTML c
    (if Index.position c = "top" ∨ Index.position c = "both"
      then Index.createWaveSection c rs1 false else WaveSection.mk "" "")
    (if Index.position c = "bottom" ∨ Index.position c = "both"
      then Index.createWaveSection c rs2 true else WaveSection.mk "" "")
    (if Index.position c = "both" then Index.contentSlotHtml else "")
    (if Index.position c = "both" then "auto" else Index.height c)
    (if Index.position c = "both" then "auto" else "100px")
    (Index.responsiveBlockStr c (Index.getResponsiveWaveHeight c)))
  rcases hpos with h | h | h
  · rw [if_pos (Or.inl h)]
    exact strInfix_assemble_of_top _ _ _ _ _ _ _ _ hstyles1
  · rw [if_pos (Or.inl h)]
    exact strInfix_assemble_of_bottom _ _ _ _ _ _ _ _ hstyles2
  · rw [if_pos (Or.inr h)]
    exact strInfix_assemble_of_top _ _ _ _ _ _ _ _ hstyles1

/-- C6 witness: the propagation theorem applied at the configuration
`speed="fast"` (a non-numeric speed) with the default wave count and
position and trivial random streams. -/
theorem c6_nan_speed_renders_not_throws_witness :
    Index.speed { speed := some "fast" } = JSNum.nan
    ∧ (∀ rand : ℕ → ℚ,
        Index.getAnimationDurations (Index.speed { speed := some "fast" })
            (Index.waveCount { speed := some "fast" }) rand
          = List.replicate (Index.waveCount { speed := some "fast" }).loopCount JSNum.nan)
    ∧ strInfix "NaN" ((Index.renderParts { speed := some "fast" }
        ⟨fun _ => (0:ℚ), fun _ => (0:ℚ), fun _ => (0:ℚ), fun _ => (0:ℚ)⟩
        ⟨fun _ => (0:ℚ), fun _ => (0:ℚ), fun _ => (0:ℚ), fun _ => (0:ℚ)⟩).innerHTML) :=
  c6_nan_speed_renders_not_throws { speed := some "fast" } "fast" rfl (by decide) (by decide)
    ⟨fun _ => (0:ℚ), fun _ => (0:ℚ), fun _ => (0:ℚ), fun _ => (0:ℚ)⟩
    ⟨fun _ => (0:ℚ), fun _ => (0:ℚ), fun _ => (0:ℚ), fun _ => (0:ℚ)⟩
    (by decide) (Or.inl rfl)
